import Mathlib

/-!
Verification development for go-verfploeter, a dual-protocol ICMP
probe/reply engine.  The repository has two source variants of the same
program (`main.go` and an earlier unnamed variant); both construct ICMP
echo requests with `golang.org/x/net/icmp`, send them over raw IPv4/IPv6
sockets, and listen for echo replies on both sockets.

The shallow embedding below models, faithfully to the Go sources:
  * Go `net.IP` values and `IP.To4`;
  * the `icmp.Message` / `icmp.Echo` wire marshalling used by `icmpProbe`
    (`Message.Marshal(nil)` with the internet checksum for v4, checksum
    left zero for v6);
  * `icmp.ParseMessage` for protocols 1 (ICMP) and 58 (ICMPv6), with the
    `parseFns` dispatch table: echo-class types parse through `parseEcho`
    (modelled bit-for-bit), unregistered types yield a
    `DefaultMessageBody`, and the remaining registered non-echo types
    (destination-unreachable, time-exceeded, parameter-problem,
    packet-too-big, extended echo) parse to a non-echo body whose
    multipart/extension internals are abstracted to the raw data, since
    the program only ever inspects whether a body is the echo variant;
  * `findNode`, `icmpProbe`, `readEchoReply`, the listener loops and the
    probe tick of `main`.  Socket I/O and DNS resolution are external
    effects, modelled as explicit inputs (a `ProbeEnv` of resolver/write
    results, a `ReadResult` for one socket read) and outputs (the list of
    send events, the labels by which the reply counter is incremented).
-/

namespace Verfploeter

/-- Address family tag distinguishing `ipv4.ICMPType` from
`ipv6.ICMPType` (in Go these are distinct dynamic types, so equality of
`icmp.Message.Type` values compares the family as well as the number). -/
inductive Family where
  | v4
  | v6
deriving DecidableEq

/-- An ICMP message type: the Go interface value `icmp.Type`, carried by
either `ipv4.ICMPType` or `ipv6.ICMPType`, i.e. a family plus a numeric
type value. -/
structure ICMPType where
  fam : Family
  num : Nat
deriving DecidableEq

/-- Go constant `ipv4.ICMPTypeEcho` (type 8). -/
def ipv4_ICMPTypeEcho : ICMPType := ⟨Family.v4, 8⟩

/-- Go constant `ipv4.ICMPTypeEchoReply` (type 0). -/
def ipv4_ICMPTypeEchoReply : ICMPType := ⟨Family.v4, 0⟩

/-- Go constant `ipv6.ICMPTypeEchoRequest` (type 128). -/
def ipv6_ICMPTypeEchoRequest : ICMPType := ⟨Family.v6, 128⟩

/-- Go constant `ipv6.ICMPTypeEchoReply` (type 129). -/
def ipv6_ICMPTypeEchoReply : ICMPType := ⟨Family.v6, 129⟩

/-- `icmp.Type.Protocol()`: 1 (iana.ProtocolICMP) for v4 types, 58
(iana.ProtocolIPv6ICMP) for v6 types. -/
def ICMPType.protocol (t : ICMPType) : Nat :=
  match t.fam with
  | Family.v4 => 1
  | Family.v6 => 58

/-- Go `icmp.Echo` body: `ID`, `Seq` are Go `int`, `Data` is a byte
slice (bytes modelled as `Nat`, always < 256 on real wire data). -/
structure Echo where
  ID : Int
  Seq : Int
  Data : List Nat
deriving DecidableEq

/-- A parsed or constructed ICMP message body.  `echo` is `*icmp.Echo`,
`dflt` is `*icmp.DefaultMessageBody` (unregistered types), and
`multipart` stands for all other bodies produced by registered non-echo
parse functions (DstUnreach, TimeExceeded, ParamProb, PacketTooBig,
extended echo); their multipart/extension structure is abstracted to the
raw body bytes because `readEchoReply` only ever asks whether the body
is `*icmp.Echo`. -/
inductive MessageBody where
  | echo (e : Echo)
  | dflt (data : List Nat)
  | multipart (data : List Nat)
deriving DecidableEq

/-- `icmp.Message`: `Type`, `Code`, `Checksum`, `Body` (the `Type` field
is named `mtype` here since `Type` is reserved in Lean). -/
structure Message where
  mtype : ICMPType
  code : Int
  checksum : Int
  body : MessageBody
deriving DecidableEq

/-- Go conversion `byte(i)` on a Go `int`: the low 8 bits. -/
def byteOfInt (i : Int) : Nat := (i % 256).toNat

/-- Go conversion `uint16(i)` on a Go `int`: the low 16 bits. -/
def uint16OfInt (i : Int) : Nat := (i % 65536).toNat

/-- `(*icmp.Echo).Marshal`: big-endian `uint16(ID)`, big-endian
`uint16(Seq)`, then the data bytes. -/
def echoMarshal (e : Echo) : List Nat :=
  let v := uint16OfInt e.ID
  let w := uint16OfInt e.Seq
  [v / 256, v % 256, w / 256, w % 256] ++ e.Data

/-- `MessageBody.Len(proto)` for a non-nil body: 4 + len(Data) for
`*icmp.Echo`, len(Data) for the others. -/
def MessageBody.lenB : MessageBody → Nat
  | MessageBody.echo e => 4 + e.Data.length
  | MessageBody.dflt d => d.length
  | MessageBody.multipart d => d.length

/-- `MessageBody.Marshal(proto)`: the echo body marshals per
`echoMarshal`; a default body marshals to its data; the abstracted
multipart bodies (never marshalled by this program) carry their data. -/
def MessageBody.marshalB : MessageBody → List Nat
  | MessageBody.echo e => echoMarshal e
  | MessageBody.dflt d => d
  | MessageBody.multipart d => d

/-- The running 32-bit one-complement accumulation loop of the internet
`checksum` helper in `golang.org/x/net/icmp`: for each byte pair it adds
`b[i+1]<<8 | b[i]` (32-bit wraparound), and a trailing lone byte is
added as-is. -/
def csSum : List Nat → Nat
  | [] => 0
  | [x] => x
  | x :: y :: rest => (y * 256 + x + csSum rest) % 4294967296

/-- The internet checksum as computed by `golang.org/x/net/icmp`:
fold the 32-bit sum into 16 bits twice, then complement (Go
`^uint16(s)`). -/
def inetChecksum (b : List Nat) : Nat :=
  let s1 := csSum b
  let s2 := s1 / 65536 + s1 % 65536
  let s3 := s2 + s2 / 65536
  65535 - (s3 % 65536)

/-- The checksum placement step of `icmp.Message.Marshal` with a nil
pseudo-header: `b[2] ^= byte(s); b[3] ^= byte(s >> 8)` where `s` is the
internet checksum of the whole message (checksum bytes still zero). -/
def applyChecksum : List Nat → List Nat
  | b0 :: b1 :: b2 :: b3 :: rest =>
    let s := inetChecksum (b0 :: b1 :: b2 :: b3 :: rest)
    b0 :: b1 :: (Nat.xor b2 (s % 256)) :: (Nat.xor b3 (s / 256 % 256)) :: rest
  | b => b

/-- `icmp.Message.Marshal(nil)` as called by `icmpProbe`: a 4-byte
header `[type, code, 0, 0]` followed by the marshalled body (skipped
when the body length is 0), then, for v4 only, the internet checksum
xor-ed into bytes 2 and 3.  For v6 with a nil pseudo-header the checksum
is left zero (computed by the kernel).  The Go error branch for a type
that is neither `ipv4.ICMPType` nor `ipv6.ICMPType` is unrepresentable
here because `ICMPType` is exactly those two families. -/
def Message.marshal (m : Message) : List Nat :=
  let hdr := [m.mtype.num % 256, byteOfInt m.code, 0, 0]
  let b := if m.body.lenB = 0 then hdr else hdr ++ m.body.marshalB
  if m.mtype.protocol = 58 then b else applyChecksum b

/-- Classification of the `parseFns` registration table of
`golang.org/x/net/icmp`: which types parse through `parseEcho`
(`echoK`) and which through a registered non-echo parse function
(`multiK`); unregistered types map to `none` (DefaultMessageBody). -/
inductive ParseKind where
  | echoK
  | multiK
deriving DecidableEq

/-- The `parseFns` table: v4 Echo (8) and EchoReply (0), v6 EchoRequest
(128) and EchoReply (129) parse as echo; v4 DestinationUnreachable (3),
TimeExceeded (11), ParameterProblem (12), ExtendedEchoRequest (42),
ExtendedEchoReply (43) and v6 DestinationUnreachable (1), PacketTooBig
(2), TimeExceeded (3), ParameterProblem (4), ExtendedEchoRequest (160),
ExtendedEchoReply (161) parse as registered non-echo bodies. -/
def parseClass (t : ICMPType) : Option ParseKind :=
  match t.fam, t.num with
  | Family.v4, 0 => some ParseKind.echoK
  | Family.v4, 3 => some ParseKind.multiK
  | Family.v4, 8 => some ParseKind.echoK
  | Family.v4, 11 => some ParseKind.multiK
  | Family.v4, 12 => some ParseKind.multiK
  | Family.v4, 42 => some ParseKind.multiK
  | Family.v4, 43 => some ParseKind.multiK
  | Family.v6, 1 => some ParseKind.multiK
  | Family.v6, 2 => some ParseKind.multiK
  | Family.v6, 3 => some ParseKind.multiK
  | Family.v6, 4 => some ParseKind.multiK
  | Family.v6, 128 => some ParseKind.echoK
  | Family.v6, 129 => some ParseKind.echoK
  | Family.v6, 160 => some ParseKind.multiK
  | Family.v6, 161 => some ParseKind.multiK
  | _, _ => none

/-- `icmp.parseEcho`: requires at least 4 body bytes, reads big-endian
ID and Seq, remaining bytes are the data. -/
def parseEcho (b : List Nat) : Except String MessageBody :=
  match b with
  | i0 :: i1 :: s0 :: s1 :: rest =>
    Except.ok (MessageBody.echo ⟨Int.ofNat (i0 * 256 + i1), Int.ofNat (s0 * 256 + s1), rest⟩)
  | _ => Except.error "message too short"

/-- `icmp.ParseMessage(proto, b)`: needs at least 4 bytes; the type is
`ipv4.ICMPType(b[0])` for proto 1 and `ipv6.ICMPType(b[0])` for proto
58 (any other proto is an error); code and checksum come from bytes 1-3;
the body is parsed by the function registered for the type, or becomes a
`DefaultMessageBody` when no function is registered.  The registered
non-echo parse functions all reject bodies shorter than 4 bytes; their
successful results are abstracted to `MessageBody.multipart`. -/
def ParseMessage (proto : Nat) (b : List Nat) : Except String Message :=
  match b with
  | b0 :: b1 :: b2 :: b3 :: rest =>
    if proto = 1 ∨ proto = 58 then
      let t : ICMPType := ⟨if proto = 1 then Family.v4 else Family.v6, b0⟩
      let code := Int.ofNat b1
      let cs := Int.ofNat (b2 * 256 + b3)
      match parseClass t with
      | none => Except.ok ⟨t, code, cs, MessageBody.dflt rest⟩
      | some ParseKind.echoK =>
        match parseEcho rest with
        | Except.ok body => Except.ok ⟨t, code, cs, body⟩
        | Except.error e => Except.error e
      | some ParseKind.multiK =>
        if rest.length < 4 then Except.error "message too short"
        else Except.ok ⟨t, code, cs, MessageBody.multipart rest⟩
    else Except.error "invalid protocol"
  | _ => Except.error "message too short"

/-- A Go `net.IP`: a byte slice, length 4 (v4) or 16 (v6). -/
structure GoIP where
  bytes : List Nat
deriving DecidableEq

/-- Go `net.IP.To4`: the address itself when 4 bytes long; the trailing
4 bytes when it is a 16-byte v4-mapped address (10 zero bytes then two
0xff bytes); otherwise nil (`none`). -/
def GoIP.to4 (ip : GoIP) : Option GoIP :=
  if ip.bytes.length = 4 then some ip
  else if ip.bytes.length = 16 ∧ (∀ b ∈ ip.bytes.take 10, b = 0) ∧
      ip.bytes.getD 10 0 = 255 ∧ ip.bytes.getD 11 0 = 255 then
    some ⟨ip.bytes.drop 12⟩
  else none

/-- `findNode(id, nodes)` from `main.go` lines 48-53: look the id up in
the nodes map (modelled as the map's entry list); a hit returns the
configured name, a miss returns `fmt.Sprintf("unknown (id %d)", id)`. -/
def findNode (id : Nat) (nodes : List (Nat × String)) : String :=
  match nodes.lookup id with
  | some node => node
  | none => "unknown (id " ++ toString id ++ ")"

/-- One datagram delivered by a socket read: the payload bytes
(`reply[:n]`) and the source address (`net.Addr`, modelled as its
string form). -/
structure Datagram where
  payload : List Nat
  src : String
deriving DecidableEq

/-- The outcome of one blocking `pc.ReadFrom` call: a datagram, or a
receive error. -/
inductive ReadResult where
  | ok (d : Datagram)
  | err (e : String)
deriving DecidableEq

/-- The result of one `readEchoReply` call plus its metric side effect:
`result` is the Go `(*icmp.Echo, net.Addr, error)` return, `incLabel`
is the `dst` label whose replies-received counter was incremented (none
when no increment happened). -/
structure RRUpdate where
  result : Except String (Echo × String)
  incLabel : Option String

/-- The protocol selection of `readEchoReply` (`main.go` lines 95-100):
parse the socket's own `LocalAddr().String()` as an IP (the argument
here is that parse result); proto 1 when `To4()` is non-nil, 58
otherwise (including the nil-IP case of an unparseable address). -/
def readProto (localParsed : Option GoIP) : Nat :=
  match localParsed with
  | some ip => if (GoIP.to4 ip).isSome then 1 else 58
  | none => 58

/-- The part of `readEchoReply` after a successful socket read
(`main.go` lines 102-116): parse the payload with the chosen protocol
(parse failure is an error), reject any type other than
`ipv4.ICMPTypeEchoReply` / `ipv6.ICMPTypeEchoReply`, assert the body is
`*icmp.Echo`, then increment the replies counter labelled by `findNode`
of `uint8(body.ID)` and return the body with the source address. -/
def rrAfterRead (proto : Nat) (d : Datagram) (nodes : List (Nat × String)) : RRUpdate :=
  match ParseMessage proto d.payload with
  | Except.error e => ⟨Except.error ("unable to parse ICMP message: " ++ e), none⟩
  | Except.ok m =>
    if m.mtype ≠ ipv4_ICMPTypeEchoReply ∧ m.mtype ≠ ipv6_ICMPTypeEchoReply then
      ⟨Except.error "unexpected ICMP message type", none⟩
    else
      match m.body with
      | MessageBody.echo e =>
        ⟨Except.ok (e, d.src), some (findNode (Int.toNat (e.ID % 256)) nodes)⟩
      | _ =>
        ⟨Except.error "unable to assert message body as *icmp.Echo (this should never happen)", none⟩

/-- `readEchoReply(pc, nodes)` from `main.go` lines 88-117: a failed
socket read is an error (wrapped); otherwise the datagram is processed
with the protocol taken from the socket's bound local address. -/
def readEchoReply (input : ReadResult) (localParsed : Option GoIP)
    (nodes : List (Nat × String)) : RRUpdate :=
  match input with
  | ReadResult.err e => ⟨Except.error ("unable to read from icmp.PacketConn: " ++ e), none⟩
  | ReadResult.ok d => rrAfterRead (readProto localParsed) d nodes

/-- The spec's listener state machine: *waiting-for-datagram* or
*terminated* (socket closed by the owning process). -/
inductive ListenerState where
  | waiting
  | terminated
deriving DecidableEq

/-- Observable state of one listener goroutine: its control state, the
log lines emitted so far, and the sequence of labels by which the
replies-received counter has been incremented. -/
structure LoopState where
  st : ListenerState
  log : List String
  replies : List String
deriving DecidableEq

/-- One iteration of a listener goroutine loop (`main.go` lines
176-185 / 188-197): call `readEchoReply`; on error, `log.Warn` the
error and continue; on success, log the debug record of
`logICMPResponse` and continue.  The loop body never leaves the waiting
state; a terminated listener takes no further steps. -/
def listenerStep (localParsed : Option GoIP) (nodes : List (Nat × String))
    (input : ReadResult) (s : LoopState) : LoopState :=
  match s.st with
  | ListenerState.terminated => s
  | ListenerState.waiting =>
    let u := readEchoReply input localParsed nodes
    match u.result with
    | Except.error e =>
      { st := ListenerState.waiting, log := s.log ++ [e],
        replies := s.replies ++ u.incLabel.toList }
    | Except.ok (body, src) =>
      { st := ListenerState.waiting,
        log := s.log ++ ["ICMP echo reply from " ++ src ++ " id " ++ toString body.ID],
        replies := s.replies ++ u.incLabel.toList }

/-- External effects available to `icmpProbe`: the result of
`net.ResolveIPAddr("ip", target)` and the results of `pc4.WriteTo` /
`pc6.WriteTo` (byte count or error). -/
structure ProbeEnv where
  resolve : String → Except String GoIP
  write4 : List Nat → GoIP → Except String Nat
  write6 : List Nat → GoIP → Except String Nat

/-- A transmit event: a write of wire bytes to a destination on the
IPv4 socket (`pc4`) or the IPv6 socket (`pc6`). -/
inductive SendEvent where
  | on4 (bytes : List Nat) (dst : GoIP)
  | on6 (bytes : List Nat) (dst : GoIP)
deriving DecidableEq

/-- The ICMP message constructed by `icmpProbe` (`main.go` lines
62-71): code 0, body `&icmp.Echo{ID: id}` (Seq and Data are Go zero
values), type `ipv4.ICMPTypeEcho` when the resolved IP's `To4()` is
non-nil, `ipv6.ICMPTypeEchoRequest` otherwise.  The `Checksum` field is
left at its zero value; `Marshal` ignores it. -/
def probeMessage (targetIP : GoIP) (id : Int) : Message :=
  { mtype := if (GoIP.to4 targetIP).isSome then ipv4_ICMPTypeEcho else ipv6_ICMPTypeEchoRequest,
    code := 0,
    checksum := 0,
    body := MessageBody.echo ⟨id, 0, []⟩ }

/-- `icmpProbe(target, id)` from `main.go` lines 56-85: resolve the
target (failure returns the error with nothing sent), build and marshal
the probe message, then write it to `pc4` when `To4()` is non-nil and
to `pc6` otherwise, returning the write's error status.  The returned
list records the transmit events that occurred. -/
def icmpProbe (env : ProbeEnv) (target : String) (id : Int) :
    Except String Unit × List SendEvent :=
  match env.resolve target with
  | Except.error e => (Except.error e, [])
  | Except.ok targetIP =>
    let bytes := (probeMessage targetIP id).marshal
    if (GoIP.to4 targetIP).isSome then
      (match env.write4 bytes targetIP with
       | Except.error e => Except.error e
       | Except.ok _ => Except.ok (), [SendEvent.on4 bytes targetIP])
    else
      (match env.write6 bytes targetIP with
       | Except.error e => Except.error e
       | Except.ok _ => Except.ok (), [SendEvent.on6 bytes targetIP])

/-- `icmpProbe(target, id)` from the unnamed source variant
(`part_000` lines 31-60), transcribed separately: the code is
line-for-line the same as the `main.go` variant. -/
def icmpProbeV0 (env : ProbeEnv) (target : String) (id : Int) :
    Except String Unit × List SendEvent :=
  match env.resolve target with
  | Except.error e => (Except.error e, [])
  | Except.ok targetIP =>
    let bytes := (probeMessage targetIP id).marshal
    if (GoIP.to4 targetIP).isSome then
      (match env.write4 bytes targetIP with
       | Except.error e => Except.error e
       | Except.ok _ => Except.ok (), [SendEvent.on4 bytes targetIP])
    else
      (match env.write6 bytes targetIP with
       | Except.error e => Except.error e
       | Except.ok _ => Except.ok (), [SendEvent.on6 bytes targetIP])

/-- Observable state of the probe scheduler: the probes-sent counter
(`requests`) and the log. -/
structure SchedState where
  requests : Nat
  log : List String
deriving DecidableEq

/-- One tick-driven invocation of the probe path on one target
(`main.go` lines 209-214; identically `part_000` lines 157-161): log
the debug line, increment the `requests` counter, call `icmpProbe`, and
log a warning when it returns an error. -/
def probeTick (env : ProbeEnv) (target : String) (cid : Nat) (s : SchedState) :
    SchedState × List SendEvent :=
  let s1 : SchedState := { s with log := s.log ++ ["Sending probe to " ++ target] }
  let s2 : SchedState := { s1 with requests := s1.requests + 1 }
  match icmpProbe env target (Int.ofNat cid) with
  | (Except.error e, sends) => ({ s2 with log := s2.log ++ [e] }, sends)
  | (Except.ok _, sends) => (s2, sends)

/-- The round-trip harness of the spec's testable property: swap a
serialized message's type byte (the first byte) for another type
number, leaving the rest of the datagram unchanged. -/
def withType (n : Nat) : List Nat → List Nat
  | [] => []
  | _ :: rest => n :: rest

/-- The reply-path protocol for the family of a resolved target: the
proto number `readEchoReply` uses on the socket the probe was sent
from (1 for v4, 58 for v6). -/
def replyProtoFor (ip : GoIP) : Nat :=
  if (GoIP.to4 ip).isSome then 1 else 58

/-- The echo-reply type number for the family of a resolved target
(v4 EchoReply is type 0, v6 EchoReply is type 129). -/
def replyNumFor (ip : GoIP) : Nat :=
  if (GoIP.to4 ip).isSome then 0 else 129

/-- Concrete IPv4 address 10.0.0.1 used in witnesses. -/
def ip4c : GoIP := ⟨[10, 0, 0, 1]⟩

/-- Concrete IPv6 address ::1 used in witnesses. -/
def ip6c : GoIP := ⟨[0, 0, 0, 0, 0, 0, 0, 0, 0, 0, 0, 0, 0, 0, 0, 1]⟩

/-- A probe environment whose resolver fails (e.g. a non-existent
hostname); both socket writes would succeed. -/
def envNoRes : ProbeEnv :=
  ⟨fun _ => Except.error "lookup example.invalid: no such host",
   fun _ _ => Except.ok 0, fun _ _ => Except.ok 0⟩

/-- A probe environment whose resolver yields the IPv4 address
10.0.0.1 and whose socket writes succeed. -/
def envOK : ProbeEnv :=
  ⟨fun _ => Except.ok ip4c, fun _ _ => Except.ok 0, fun _ _ => Except.ok 0⟩

/-- Case split on the outcome of the post-read reply path: it either
returns an error and increments nothing, or returns an echo body with
the datagram's source and increments exactly the label obtained by
`findNode` of the body identifier's low 8 bits. -/
theorem rrAfterRead_cases (proto : Nat) (d : Datagram) (nodes : List (Nat × String)) :
    (∃ msg, (rrAfterRead proto d nodes).result = Except.error msg ∧
      (rrAfterRead proto d nodes).incLabel = none) ∨
    (∃ e, (rrAfterRead proto d nodes).result = Except.ok (e, d.src) ∧
      (rrAfterRead proto d nodes).incLabel =
        some (findNode (Int.toNat (e.ID % 256)) nodes)) := by
  unfold rrAfterRead
  cases hp : ParseMessage proto d.payload with
  | error e => exact Or.inl ⟨_, rfl, rfl⟩
  | ok m =>
    dsimp only
    split
    · exact Or.inl ⟨_, rfl, rfl⟩
    · cases hb : m.body with
      | echo e => exact Or.inr ⟨e, rfl, rfl⟩
      | dflt d2 => exact Or.inl ⟨_, rfl, rfl⟩
      | multipart d2 => exact Or.inl ⟨_, rfl, rfl⟩

/-- A `readEchoReply` call that returns an error increments no
replies-received counter. -/
theorem readEchoReply_error_no_inc (input : ReadResult) (localParsed : Option GoIP)
    (nodes : List (Nat × String)) (msg : String)
    (h : (readEchoReply input localParsed nodes).result = Except.error msg) :
    (readEchoReply input localParsed nodes).incLabel = none := by
  cases input with
  | err e => rfl
  | ok d =>
    rcases rrAfterRead_cases (readProto localParsed) d nodes with
      ⟨m2, _, hinc⟩ | ⟨e2, hres, _⟩
    · exact hinc
    · rw [readEchoReply] at h
      rw [hres] at h
      cases h

/-- Claim C1 (corrected): every tick-driven invocation of the probe
path increments the probes-sent counter exactly once, unconditionally —
the increment happens before `icmpProbe` runs, so the counter does not
track reaching the transmit step. -/
theorem probeTick_increments_requests (env : ProbeEnv) (target : String)
    (cid : Nat) (s : SchedState) :
    (probeTick env target cid s).1.requests = s.requests + 1 := by
  unfold probeTick
  split <;> rfl

/-- Claim C1 counterexample: a tick whose target-address resolution
fails (so the call never reaches the transmit step — no send event
occurs) nevertheless increments the probes-sent counter, contradicting
the claim that resolution failures do not increment it. -/
theorem probeTick_counts_failed_resolution :
    (probeTick envNoRes "example.invalid" 7 ⟨0, []⟩).1.requests = 1 ∧
    (probeTick envNoRes "example.invalid" 7 ⟨0, []⟩).2 = [] :=
  ⟨rfl, rfl⟩

/-- Claim C2: `findNode` is total — an id present in the nodes map
yields its configured name, and an absent id yields the placeholder
string "unknown (id N)" embedding the numeric id; no error is
possible. -/
theorem findNode_total_lookup (id : Nat) (nodes : List (Nat × String)) :
    (∀ name, nodes.lookup id = some name → findNode id nodes = name) ∧
    (nodes.lookup id = none →
      findNode id nodes = "unknown (id " ++ toString id ++ ")") := by
  constructor
  · intro name h
    unfold findNode
    rw [h]
  · intro h
    unfold findNode
    rw [h]

/-- Claim C2 witness: registry {1 ↦ "ams", 2 ↦ "nyc"} resolves 2 to
"nyc", and registry {1 ↦ "ams"} resolves the absent id 9 to
"unknown (id 9)". -/
theorem findNode_total_lookup_witness :
    findNode 2 [(1, "ams"), (2, "nyc")] = "nyc" ∧
    findNode 9 [(1, "ams")] = "unknown (id 9)" :=
  ⟨(findNode_total_lookup 2 [(1, "ams"), (2, "nyc")]).1 "nyc" rfl,
   (findNode_total_lookup 9 [(1, "ams")]).2 rfl⟩

/-- Claim C5: a probe whose target resolves to an address with a
non-nil `To4()` is transmitted on the IPv4 socket and only there; one
whose resolved address has nil `To4()` (a pure IPv6 address) is
transmitted on the IPv6 socket and only there.  In both cases exactly
one send event occurs, carrying the marshalled probe message. -/
theorem icmpProbe_family_dispatch (env : ProbeEnv) (target : String) (id : Int)
    (ip : GoIP) (h : env.resolve target = Except.ok ip) :
    ((GoIP.to4 ip).isSome = true →
      (icmpProbe env target id).2 = [SendEvent.on4 ((probeMessage ip id).marshal) ip]) ∧
    ((GoIP.to4 ip).isSome = false →
      (icmpProbe env target id).2 = [SendEvent.on6 ((probeMessage ip id).marshal) ip]) := by
  unfold icmpProbe
  rw [h]
  constructor <;> intro h4 <;> simp [h4]

/-- Claim C5 witness: with a resolver yielding 10.0.0.1, the probe is
sent on the IPv4 socket only. -/
theorem icmpProbe_family_dispatch_witness :
    (icmpProbe envOK "10.0.0.1" 7).2 =
      [SendEvent.on4 ((probeMessage ip4c 7).marshal) ip4c] :=
  (icmpProbe_family_dispatch envOK "10.0.0.1" 7 ip4c rfl).1 (by decide)

/-- Claim C6: the message `icmpProbe` constructs has code 0, an Echo
body whose identifier is the origin id (Seq and Data zero-valued), and
type `ipv4.ICMPTypeEcho` when the resolved IP is IPv4 (`To4()`
non-nil), `ipv6.ICMPTypeEchoRequest` otherwise. -/
theorem probeMessage_shape (ip : GoIP) (id : Int) :
    (probeMessage ip id).code = 0 ∧
    (probeMessage ip id).body = MessageBody.echo ⟨id, 0, []⟩ ∧
    ((GoIP.to4 ip).isSome = true → (probeMessage ip id).mtype = ipv4_ICMPTypeEcho) ∧
    ((GoIP.to4 ip).isSome = false → (probeMessage ip id).mtype = ipv6_ICMPTypeEchoRequest) := by
  refine ⟨rfl, rfl, ?_, ?_⟩ <;> intro h <;> simp [probeMessage, h]

/-- Claim C6 witness: at 10.0.0.1 the constructed message is a v4 Echo
request with code 0; at ::1 it is a v6 EchoRequest. -/
theorem probeMessage_shape_witness :
    (probeMessage ip4c 3).mtype = ipv4_ICMPTypeEcho ∧
    (probeMessage ip6c 3).mtype = ipv6_ICMPTypeEchoRequest ∧
    (probeMessage ip4c 3).code = 0 :=
  ⟨(probeMessage_shape ip4c 3).2.2.1 (by decide),
   (probeMessage_shape ip6c 3).2.2.2 (by decide),
   (probeMessage_shape ip4c 3).1⟩

/-- Claim C7: `readEchoReply` chooses the raw protocol for parsing from
the socket's own bound local address — 1 when that address is IPv4, 58
when it is IPv6 — uniformly for every received datagram, so the proto
is never inferred from the packet contents. -/
theorem readEchoReply_proto_from_local_addr (ip : GoIP) (d : Datagram)
    (nodes : List (Nat × String)) :
    ((GoIP.to4 ip).isSome = true →
      readEchoReply (ReadResult.ok d) (some ip) nodes = rrAfterRead 1 d nodes) ∧
    ((GoIP.to4 ip).isSome = false →
      readEchoReply (ReadResult.ok d) (some ip) nodes = rrAfterRead 58 d nodes) := by
  constructor <;> intro h <;> simp [readEchoReply, readProto, h]

/-- Claim C7 witness: on a socket bound to 10.0.0.1 an arbitrary
datagram is parsed with proto 1. -/
theorem readEchoReply_proto_from_local_addr_witness :
    readEchoReply (ReadResult.ok ⟨[3, 1, 0, 0, 0, 0, 0, 0], "x"⟩) (some ip4c) [] =
      rrAfterRead 1 ⟨[3, 1, 0, 0, 0, 0, 0, 0], "x"⟩ [] :=
  (readEchoReply_proto_from_local_addr ip4c ⟨[3, 1, 0, 0, 0, 0, 0, 0], "x"⟩ []).1 (by decide)

/-- Claim C9: the two source variants' `icmpProbe` functions are
behaviourally equal — same resolution, same constructed and marshalled
wire bytes, same socket-family dispatch, same returned error or
success, for every environment, target string and identifier. -/
theorem icmpProbe_variants_equal (env : ProbeEnv) (target : String) (id : Int) :
    icmpProbe env target id = icmpProbeV0 env target id := rfl

/-- Claim C4: a datagram whose parsed type is not an echo reply (for
example destination-unreachable) makes `readEchoReply` return an error
and increments no replies-received counter; a datagram that parses
successfully as an echo reply with an Echo body increments the counter
exactly once (one label emission); and the listener loop stays in the
waiting state after processing any datagram. -/
theorem readEchoReply_type_gate (proto : Nat) (d : Datagram)
    (nodes : List (Nat × String)) :
    (∀ m, ParseMessage proto d.payload = Except.ok m →
      m.mtype ≠ ipv4_ICMPTypeEchoReply → m.mtype ≠ ipv6_ICMPTypeEchoReply →
      (∃ msg, (rrAfterRead proto d nodes).result = Except.error msg) ∧
      (rrAfterRead proto d nodes).incLabel = none) ∧
    (∀ m e, ParseMessage proto d.payload = Except.ok m →
      (m.mtype = ipv4_ICMPTypeEchoReply ∨ m.mtype = ipv6_ICMPTypeEchoReply) →
      m.body = MessageBody.echo e →
      (rrAfterRead proto d nodes).result = Except.ok (e, d.src) ∧
      (rrAfterRead proto d nodes).incLabel =
        some (findNode (Int.toNat (e.ID % 256)) nodes)) ∧
    (∀ localParsed input s, s.st = ListenerState.waiting →
      (listenerStep localParsed nodes input s).st = ListenerState.waiting) := by
  refine ⟨?_, ?_, ?_⟩
  · intro m hp h4 h6
    unfold rrAfterRead
    rw [hp]
    dsimp only
    rw [if_pos ⟨h4, h6⟩]
    exact ⟨⟨_, rfl⟩, rfl⟩
  · intro m e hp ht hb
    unfold rrAfterRead
    rw [hp]
    dsimp only
    rw [if_neg (fun hcon => ht.elim (fun hh => hcon.1 hh) (fun hh => hcon.2 hh))]
    rw [hb]
    exact ⟨rfl, rfl⟩
  · intro localParsed input s hw
    obtain ⟨st, lg, rp⟩ := s
    simp only at hw
    subst hw
    simp only [listenerStep]
    split <;> rfl

/-- Claim C4 witness: a destination-unreachable datagram (v4 type 3)
yields an error and no increment; a v4 echo reply with identifier 5
increments exactly the label of node 5. -/
theorem readEchoReply_type_gate_witness :
    ((∃ msg, (rrAfterRead 1 ⟨[3, 1, 0, 0, 0, 0, 0, 0], "x"⟩ []).result = Except.error msg) ∧
      (rrAfterRead 1 ⟨[3, 1, 0, 0, 0, 0, 0, 0], "x"⟩ []).incLabel = none) ∧
    ((rrAfterRead 1 ⟨[0, 0, 0, 0, 0, 5, 0, 0], "y"⟩ [(5, "ams")]).result =
        Except.ok (⟨5, 0, []⟩, "y") ∧
      (rrAfterRead 1 ⟨[0, 0, 0, 0, 0, 5, 0, 0], "y"⟩ [(5, "ams")]).incLabel = some "ams") :=
  have h1 := (readEchoReply_type_gate 1 ⟨[3, 1, 0, 0, 0, 0, 0, 0], "x"⟩ []).1
    ⟨⟨Family.v4, 3⟩, 1, 0, MessageBody.multipart [0, 0, 0, 0]⟩ rfl (by decide) (by decide)
  have h2 := ((readEchoReply_type_gate 1 ⟨[0, 0, 0, 0, 0, 5, 0, 0], "y"⟩ [(5, "ams")]).2).1
    ⟨⟨Family.v4, 0⟩, 0, 0, MessageBody.echo ⟨5, 0, []⟩⟩ ⟨5, 0, []⟩ rfl (Or.inl rfl) rfl
  ⟨h1, h2.1, by rw [h2.2]; rfl⟩

/-- Claim C8: the listener loop is never terminated by a per-packet
condition — from the waiting state, any iteration (in particular one
whose `readEchoReply` returns an error: receive error, parse error,
unexpected type, or body-type mismatch) logs the error, leaves the
replies-received counters unchanged, and continues in the waiting
state. -/
theorem listener_loop_stays_waiting (localParsed : Option GoIP)
    (nodes : List (Nat × String)) (input : ReadResult) (s : LoopState)
    (hw : s.st = ListenerState.waiting) :
    (listenerStep localParsed nodes input s).st = ListenerState.waiting ∧
    ∀ msg, (readEchoReply input localParsed nodes).result = Except.error msg →
      (listenerStep localParsed nodes input s).log = s.log ++ [msg] ∧
      (listenerStep localParsed nodes input s).replies = s.replies := by
  obtain ⟨st, lg, rp⟩ := s
  simp only at hw
  subst hw
  constructor
  · simp only [listenerStep]
    split <;> rfl
  · intro msg hmsg
    have hni := readEchoReply_error_no_inc input localParsed nodes msg hmsg
    simp only [listenerStep]
    split
    · next e heq =>
      rw [hmsg] at heq
      cases heq
      simp [hni]
    · next body src heq =>
      rw [hmsg] at heq
      cases heq

/-- Claim C8 witness: a failed socket read from the waiting state logs
the wrapped receive error, increments nothing, and the listener is
still waiting. -/
theorem listener_loop_stays_waiting_witness :
    (listenerStep none [] (ReadResult.err "read failed") ⟨ListenerState.waiting, [], []⟩).st =
      ListenerState.waiting ∧
    (listenerStep none [] (ReadResult.err "read failed") ⟨ListenerState.waiting, [], []⟩).log =
      [] ++ ["unable to read from icmp.PacketConn: read failed"] ∧
    (listenerStep none [] (ReadResult.err "read failed") ⟨ListenerState.waiting, [], []⟩).replies =
      ([] : List String) :=
  have h := listener_loop_stays_waiting none [] (ReadResult.err "read failed")
    ⟨ListenerState.waiting, [], []⟩ rfl
  have h2 := h.2 "unable to read from icmp.PacketConn: read failed" rfl
  ⟨h.1, h2.1, h2.2⟩

/-- Claim C10: on every successful reply, the label whose
replies-received counter is incremented is `findNode` of the
identifier's low 8 bits (the Go `uint8` conversion is reduction mod
256), so identifiers differing by a multiple of 256 are counted under
the same node label. -/
theorem reply_label_uses_low8 (proto : Nat) (d : Datagram)
    (nodes : List (Nat × String)) :
    (∀ e src, (rrAfterRead proto d nodes).result = Except.ok (e, src) →
      (rrAfterRead proto d nodes).incLabel =
        some (findNode (Int.toNat (e.ID % 256)) nodes)) ∧
    (∀ id1 id2 : Int, (id1 - id2) % 256 = 0 →
      findNode (Int.toNat (id1 % 256)) nodes = findNode (Int.toNat (id2 % 256)) nodes) := by
  constructor
  · intro e src h
    rcases rrAfterRead_cases proto d nodes with ⟨msg, hr, _⟩ | ⟨e2, hr, hinc⟩
    · rw [hr] at h
      cases h
    · rw [hr] at h
      cases h
      exact hinc
  · intro id1 id2 h
    have heq : id1 % 256 = id2 % 256 := by omega
    rw [heq]

/-- Claim C10 witness: an echo reply carrying identifier 258 is
labelled by `findNode 2` — the same label as identifier 2 — here "nyc"
under registry {2 ↦ "nyc"}. -/
theorem reply_label_uses_low8_witness :
    (rrAfterRead 1 ⟨[0, 0, 0, 0, 1, 2, 0, 0], "z"⟩ [(2, "nyc")]).incLabel = some "nyc" ∧
    findNode (Int.toNat ((258 : Int) % 256)) [(2, "nyc")] =
      findNode (Int.toNat ((2 : Int) % 256)) [(2, "nyc")] :=
  have h1 := (reply_label_uses_low8 1 ⟨[0, 0, 0, 0, 1, 2, 0, 0], "z"⟩ [(2, "nyc")]).1
    ⟨258, 0, []⟩ "z" rfl
  have h2 := (reply_label_uses_low8 1 ⟨[0, 0, 0, 0, 1, 2, 0, 0], "z"⟩ [(2, "nyc")]).2
    258 2 (by decide)
  ⟨by rw [h1]; rfl, h2⟩

/-- Shape of the reply path on a v4 echo-reply datagram: whatever the
code and checksum bytes, the body parses to the big-endian identifier
and sequence with the remaining bytes as data. -/
theorem rr_v4_echo_reply_shape (b1 b2 b3 i0 i1 s0 s1 : Nat) (rest : List Nat)
    (src : String) (nodes : List (Nat × String)) :
    (rrAfterRead 1 ⟨0 :: b1 :: b2 :: b3 :: i0 :: i1 :: s0 :: s1 :: rest, src⟩ nodes).result =
      Except.ok (⟨Int.ofNat (i0 * 256 + i1), Int.ofNat (s0 * 256 + s1), rest⟩, src) := rfl

/-- Shape of the reply path on a v6 echo-reply datagram (type byte
129, proto 58), analogous to the v4 case. -/
theorem rr_v6_echo_reply_shape (b1 b2 b3 i0 i1 s0 s1 : Nat) (rest : List Nat)
    (src : String) (nodes : List (Nat × String)) :
    (rrAfterRead 58 ⟨129 :: b1 :: b2 :: b3 :: i0 :: i1 :: s0 :: s1 :: rest, src⟩ nodes).result =
      Except.ok (⟨Int.ofNat (i0 * 256 + i1), Int.ofNat (s0 * 256 + s1), rest⟩, src) := rfl

/-- Claim C3: for every identifier in the configured range 0-255, an
echo request built by the probe path, serialized, given the matching
reply type in place of its request type, and fed to the reply-path
parser with the proto of its own family, parses to an Echo body whose
identifier equals the original identifier. -/
theorem probe_reply_roundtrip_id (ip : GoIP) (id : Int) (src : String)
    (nodes : List (Nat × String)) (h0 : 0 ≤ id) (h255 : id ≤ 255) :
    ∃ e : Echo,
      (rrAfterRead (replyProtoFor ip)
        ⟨withType (replyNumFor ip) ((probeMessage ip id).marshal), src⟩ nodes).result =
        Except.ok (e, src) ∧ e.ID = id := by
  have hv : uint16OfInt id = Int.toNat id := by
    unfold uint16OfInt
    omega
  have hzero : uint16OfInt 0 = 0 := rfl
  have hd : Int.toNat id / 256 = 0 := by omega
  have hm : Int.toNat id % 256 = Int.toNat id := by omega
  cases h4 : (GoIP.to4 ip).isSome with
  | true =>
    have hmar : (probeMessage ip id).marshal =
        applyChecksum [8, 0, 0, 0, 0, Int.toNat id, 0, 0] := by
      simp [probeMessage, h4, Message.marshal, MessageBody.lenB, MessageBody.marshalB,
        echoMarshal, hv, hzero, hd, hm, byteOfInt, ipv4_ICMPTypeEcho, ICMPType.protocol]
    rw [show replyProtoFor ip = 1 by simp [replyProtoFor, h4],
      show replyNumFor ip = 0 by simp [replyNumFor, h4], hmar]
    simp only [applyChecksum, withType]
    refine ⟨_, rr_v4_echo_reply_shape _ _ _ 0 (Int.toNat id) 0 0 [] src nodes, ?_⟩
    simp
    omega
  | false =>
    have hmar : (probeMessage ip id).marshal = [128, 0, 0, 0, 0, Int.toNat id, 0, 0] := by
      simp [probeMessage, h4, Message.marshal, MessageBody.lenB, MessageBody.marshalB,
        echoMarshal, hv, hzero, hd, hm, byteOfInt, ipv6_ICMPTypeEchoRequest, ICMPType.protocol]
    rw [show replyProtoFor ip = 58 by simp [replyProtoFor, h4],
      show replyNumFor ip = 129 by simp [replyNumFor, h4], hmar]
    simp only [withType]
    refine ⟨_, rr_v6_echo_reply_shape 0 0 0 0 (Int.toNat id) 0 0 [] src nodes, ?_⟩
    simp
    omega

/-- Claim C3 witness: identifier 7 round-trips through serialization
and the reply-path parse for the IPv4 target 10.0.0.1. -/
theorem probe_reply_roundtrip_id_witness :
    (0 : Int) ≤ 7 ∧ (7 : Int) ≤ 255 ∧
    ∃ e : Echo,
      (rrAfterRead (replyProtoFor ip4c)
        ⟨withType (replyNumFor ip4c) ((probeMessage ip4c 7).marshal), "w"⟩ []).result =
        Except.ok (e, "w") ∧ e.ID = 7 :=
  ⟨by decide, by decide, probe_reply_roundtrip_id ip4c 7 "w" [] (by decide) (by decide)⟩

end Verfploeter
